import Mathlib

/-!
Verification of the `trakt` package core (`trakt/core.py`, `trakt/errors.py`).

The embedding models:
* HTTP responses as a record of headers (an association list, as produced by
  the transport) and a raw body string;
* `json.loads` as a recursive-descent JSON parser over the body / header
  text returning `Option Json` (`none` models a raised `JSONDecodeError`);
* Python `int(...)` applied to a string as `pyInt` (`none` models a raised
  `ValueError`);
* the exception taxonomy of `trakt/errors.py` as a record carrying the
  variant kind, the stored response and (for `OAuthRefreshException`) the
  eagerly decoded body, with each header-derived property embedded as a
  function returning `Except PyError _` so that raising is explicit;
* the `functools.lru_cache` memoization of `config()` / `api()` in
  `trakt/core.py` as an explicit cache-cell state machine.
-/

/-- Python exceptions that the modelled code can raise. -/
inductive PyError where
  | jsonDecodeError
  | valueError
  | keyError : String → PyError
  | typeError
  | attributeError
deriving DecidableEq, Repr

/-- JSON values as produced by `json.loads`.  Non-integral numeric literals
(carrying a fraction or exponent part) are kept as their source text in
`fnum`, since their float value plays no role in the code under study. -/
inductive Json where
  | null : Json
  | bool : Bool → Json
  | num : Int → Json
  | fnum : String → Json
  | str : String → Json
  | arr : List Json → Json
  | obj : List (String × Json) → Json
deriving Repr, Inhabited

/-- JSON insignificant whitespace. -/
def isJsonWs (c : Char) : Bool :=
  c = ' ' ∨ c = '\t' ∨ c = '\n' ∨ c = '\r'

/-- Drop leading JSON whitespace. -/
def skipWs : List Char → List Char
  | c :: cs => if isJsonWs c then skipWs cs else c :: cs
  | [] => []

/-- Numeric value of a decimal digit list (most significant first). -/
def digitsToNat (ds : List Char) : Nat :=
  ds.foldl (fun acc c => acc * 10 + (c.toNat - 48)) 0

/-- Parse the four hex digits of a `\uXXXX` escape. -/
def hexVal (c : Char) : Option Nat :=
  if c.isDigit then some (c.toNat - 48)
  else if 'a' ≤ c ∧ c ≤ 'f' then some (c.toNat - 87)
  else if 'A' ≤ c ∧ c ≤ 'F' then some (c.toNat - 55)
  else none

/-- Parse the remainder of a JSON string literal (the opening quote is
already consumed), returning the decoded text and the rest of the input. -/
def parseStrBody : List Char → List Char → Option (String × List Char)
  | acc, '"' :: rest => some (String.mk acc.reverse, rest)
  | acc, '\\' :: e :: rest =>
    match e with
    | '"' => parseStrBody ('"' :: acc) rest
    | '\\' => parseStrBody ('\\' :: acc) rest
    | '/' => parseStrBody ('/' :: acc) rest
    | 'b' => parseStrBody ('\x08' :: acc) rest
    | 'f' => parseStrBody ('\x0c' :: acc) rest
    | 'n' => parseStrBody ('\n' :: acc) rest
    | 'r' => parseStrBody ('\r' :: acc) rest
    | 't' => parseStrBody ('\t' :: acc) rest
    | 'u' =>
      match rest with
      | h1 :: h2 :: h3 :: h4 :: rest2 =>
        match hexVal h1, hexVal h2, hexVal h3, hexVal h4 with
        | some a, some b, some c, some d =>
          let n := ((a * 16 + b) * 16 + c) * 16 + d
          if h : n < 0xd800 ∨ 0xdfff < n ∧ n < 0x110000 then
            parseStrBody (Char.ofNatAux n h :: acc) rest2
          else none
        | _, _, _, _ => none
      | _ => none
    | _ => none
  | acc, c :: rest =>
    if c.toNat < 0x20 then none else parseStrBody (c :: acc) rest
  | _, [] => none

/-- Parse a JSON number (integer, fraction and exponent parts per the JSON
grammar).  A plain integer becomes `Json.num`; a literal with a fraction or
exponent part becomes `Json.fnum` carrying its source text. -/
def parseNum (cs : List Char) : Option (Json × List Char) :=
  let signAndRest : List Char × List Char :=
    match cs with
    | '-' :: r => (['-'], r)
    | _ => ([], cs)
  let sign := signAndRest.1
  let cs1 := signAndRest.2
  let ds := cs1.takeWhile Char.isDigit
  let rest := cs1.dropWhile Char.isDigit
  if ds.isEmpty then none
  else if ds.head? = some '0' ∧ ds.length > 1 then none
  else
    let fracSpan : List Char × List Char :=
      match rest with
      | '.' :: r2 =>
        let fs := r2.takeWhile Char.isDigit
        if fs.isEmpty then ([], rest) else ('.' :: fs, r2.dropWhile Char.isDigit)
      | _ => ([], rest)
    let frac := fracSpan.1
    let rest2 := if frac.isEmpty then rest else fracSpan.2
    let expSpan : List Char × List Char :=
      match rest2 with
      | e :: r3 =>
        if e = 'e' ∨ e = 'E' then
          match r3 with
          | s :: r4 =>
            if s = '+' ∨ s = '-' then
              let es := r4.takeWhile Char.isDigit
              if es.isEmpty then ([], rest2)
              else (e :: s :: es, r4.dropWhile Char.isDigit)
            else
              let es := r3.takeWhile Char.isDigit
              if es.isEmpty then ([], rest2)
              else (e :: es, r3.dropWhile Char.isDigit)
          | [] => ([], rest2)
        else ([], rest2)
      | [] => ([], rest2)
    let ex := expSpan.1
    let rest3 := if ex.isEmpty then rest2 else expSpan.2
    if frac.isEmpty ∧ ex.isEmpty then
      let n : Int := Int.ofNat (digitsToNat ds)
      some (Json.num (if sign.isEmpty then n else -n), rest)
    else
      some (Json.fnum (String.mk (sign ++ ds ++ frac ++ ex)), rest3)

mutual

/-- Recursive-descent JSON value parser, fuelled for termination. -/
def parseVal : Nat → List Char → Option (Json × List Char)
  | 0, _ => none
  | fuel + 1, cs =>
    match skipWs cs with
    | [] => none
    | 'n' :: 'u' :: 'l' :: 'l' :: rest => some (Json.null, rest)
    | 't' :: 'r' :: 'u' :: 'e' :: rest => some (Json.bool true, rest)
    | 'f' :: 'a' :: 'l' :: 's' :: 'e' :: rest => some (Json.bool false, rest)
    | '"' :: rest =>
      match parseStrBody [] rest with
      | some (s, r) => some (Json.str s, r)
      | none => none
    | '[' :: rest =>
      match skipWs rest with
      | ']' :: r2 => some (Json.arr [], r2)
      | r2 => parseArrElems fuel r2 []
    | '\x7b' :: rest =>
      match skipWs rest with
      | '\x7d' :: r2 => some (Json.obj [], r2)
      | r2 => parseObjMembers fuel r2 []
    | c :: r =>
      if c = '-' ∨ c.isDigit then parseNum (c :: r) else none

/-- Parse the comma-separated elements of a non-empty JSON array. -/
def parseArrElems : Nat → List Char → List Json → Option (Json × List Char)
  | 0, _, _ => none
  | fuel + 1, cs, acc =>
    match parseVal fuel cs with
    | none => none
    | some (v, rest) =>
      match skipWs rest with
      | ',' :: r2 => parseArrElems fuel r2 (acc ++ [v])
      | ']' :: r2 => some (Json.arr (acc ++ [v]), r2)
      | _ => none

/-- Parse the comma-separated members of a non-empty JSON object.  A
repeated key overwrites the earlier binding, as Python dicts do. -/
def parseObjMembers : Nat → List Char → List (String × Json) →
    Option (Json × List Char)
  | 0, _, _ => none
  | fuel + 1, cs, acc =>
    match skipWs cs with
    | '"' :: rest =>
      match parseStrBody [] rest with
      | none => none
      | some (k, r2) =>
        match skipWs r2 with
        | ':' :: r3 =>
          match parseVal fuel r3 with
          | none => none
          | some (v, r4) =>
            let acc2 := acc.filter (fun p => p.1 ≠ k) ++ [(k, v)]
            match skipWs r4 with
            | ',' :: r5 => parseObjMembers fuel r5 acc2
            | '\x7d' :: r5 => some (Json.obj acc2, r5)
            | _ => none
        | _ => none
    | _ => none

end

/-- Embedding of `json.loads` on a string: `none` models a raised
`json.JSONDecodeError` (the only exception `loads` raises on `str` input),
`some v` the decoded value. -/
def loads (s : String) : Option Json :=
  match parseVal (2 * s.length + 4) s.toList with
  | some (v, rest) => if (skipWs rest).isEmpty then some v else none
  | none => none

/-- Python whitespace stripped by `int(str)`. -/
def isPySpace (c : Char) : Bool :=
  c = ' ' ∨ c = '\t' ∨ c = '\n' ∨ c = '\r' ∨ c = '\x0b' ∨ c = '\x0c'

/-- Digits of an `int()` literal: nonempty decimal digits with single
underscores allowed between digits (Python 3.6+). -/
def pyIntDigits : Nat → List Char → Option Nat
  | acc, [] => some acc
  | acc, '_' :: c :: cs =>
    if c.isDigit then pyIntDigits (acc * 10 + (c.toNat - 48)) cs else none
  | acc, c :: cs =>
    if c.isDigit then pyIntDigits (acc * 10 + (c.toNat - 48)) cs else none

/-- Embedding of Python `int(s)` on a decimal string: strips surrounding
whitespace, accepts an optional sign then digits; `none` models a raised
`ValueError`. -/
def pyInt (s : String) : Option Int :=
  let cs := (s.toList.dropWhile isPySpace).reverse.dropWhile isPySpace
  let cs := cs.reverse
  let signAndRest : Bool × List Char :=
    match cs with
    | '-' :: r => (true, r)
    | '+' :: r => (false, r)
    | _ => (false, cs)
  match signAndRest.2 with
  | [] => none
  | c :: r =>
    if c.isDigit then
      match pyIntDigits (c.toNat - 48) r with
      | some n => some (if signAndRest.1 then -(Int.ofNat n) else Int.ofNat n)
      | none => none
    else none

/-- An HTTP response as the error classes consume it: the header mapping
(`response.headers`, looked up with `dict.get`) and the raw body text that
`response.json()` decodes. -/
structure Response where
  headers : List (String × String)
  body : String

/-- `headers.get(k)` / `headers.get(k, None)`. -/
def headersGet (hs : List (String × String)) (k : String) : Option String :=
  List.lookup k hs

/-- `headers.get(k, d)` with a string default. -/
def headersGetD (hs : List (String × String)) (k d : String) : String :=
  (List.lookup k hs).getD d

/-- `response.json()`: decode the body, raising `JSONDecodeError` on
malformed bodies. -/
def Response.json (r : Response) : Except PyError Json :=
  match loads r.body with
  | some v => Except.ok v
  | none => Except.error PyError.jsonDecodeError

/-- The exception classes of `trakt/errors.py`, one variant per class. -/
inductive ErrKind where
  | traktException
  | badResponseException
  | badRequestException
  | oauthException
  | oauthRefreshException
  | forbiddenException
  | notFoundException
  | methodNotAllowedException
  | conflictException
  | processException
  | lockedUserAccountException
  | rateLimitException
  | accountLimitExceeded
  | traktInternalException
  | traktBadGateway
  | traktUnavailable
deriving DecidableEq, Repr

/-- The `http_code` class attribute of each exception class
(`TraktException.http_code` is `None`; `BadResponseException` uses `-1`).
`none` models Python `None`. -/
def http_code : ErrKind → Option Int
  | ErrKind.traktException => none
  | ErrKind.badResponseException => some (-1)
  | ErrKind.badRequestException => some 400
  | ErrKind.oauthException => some 401
  | ErrKind.oauthRefreshException => some 401
  | ErrKind.forbiddenException => some 403
  | ErrKind.notFoundException => some 404
  | ErrKind.methodNotAllowedException => some 405
  | ErrKind.conflictException => some 409
  | ErrKind.processException => some 422
  | ErrKind.lockedUserAccountException => some 423
  | ErrKind.rateLimitException => some 429
  | ErrKind.accountLimitExceeded => some 420
  | ErrKind.traktInternalException => some 500
  | ErrKind.traktBadGateway => some 502
  | ErrKind.traktUnavailable => some 503

/-- An exception instance: the variant, the stored `self.response`
(`none` models `response=None`), the decoded body stored as `self.data` by
`OAuthRefreshException.__init__`, and the `details` argument stored by
`BadResponseException.__init__`. -/
structure TraktException where
  kind : ErrKind
  response : Option Response
  data : Option Json := none
  detailsArg : Option String := none

/-- `TraktException.__init__(self, response=None)`: stores the response.
Every class without its own `__init__` constructs through this. -/
def TraktException.mk' (k : ErrKind) (response : Option Response) :
    TraktException :=
  { kind := k, response := response }

/-- `BadResponseException.__init__(self, response=None, details=None)`:
stores the response via the base class and the `details` argument. -/
def BadResponseException.mk (response : Option Response)
    (details : Option String) : TraktException :=
  { kind := ErrKind.badResponseException, response := response,
    detailsArg := details }

/-- `OAuthRefreshException.__init__(self, response=None)`: stores the
response, then eagerly evaluates `self.data = self.response.json()`.  When
`response` is `None` the attribute access raises `AttributeError`; when the
body is not valid JSON, `.json()` raises `JSONDecodeError` and the instance
is never created. -/
def OAuthRefreshException.mk (response : Option Response) :
    Except PyError TraktException :=
  match response with
  | none => Except.error PyError.attributeError
  | some r =>
    match r.json with
    | Except.ok v =>
      Except.ok { kind := ErrKind.oauthRefreshException,
                  response := some r, data := some v }
    | Except.error e => Except.error e

/-- Python `d[k]` subscription on a decoded JSON value: `KeyError` for a
missing key of a dict, `TypeError` when the value is not a dict. -/
def Json.indexStr (j : Json) (k : String) : Except PyError Json :=
  match j with
  | Json.obj m =>
    match List.lookup k m with
    | some v => Except.ok v
    | none => Except.error (PyError.keyError k)
  | _ => Except.error PyError.typeError

/-- `OAuthRefreshException.error`: `self.data["error"]`. -/
def OAuthRefreshException.error (e : TraktException) : Except PyError Json :=
  match e.data with
  | some j => j.indexStr "error"
  | none => Except.error PyError.attributeError

/-- `OAuthRefreshException.error_description`:
`self.data["error_description"]`. -/
def OAuthRefreshException.error_description (e : TraktException) :
    Except PyError Json :=
  match e.data with
  | some j => j.indexStr "error_description"
  | none => Except.error PyError.attributeError

/-- `RateLimitException.retry_after`:
`int(self.response.headers.get("retry-after", 1))`.  When the header is
absent `get` returns the integer default `1` and `int(1) = 1`; when it is
present `int` parses the header string and raises `ValueError` on a
non-numeric value. -/
def RateLimitException.retry_after (e : TraktException) :
    Except PyError Int :=
  match e.response with
  | none => Except.error PyError.attributeError
  | some r =>
    match headersGet r.headers "retry-after" with
    | none => Except.ok 1
    | some s =>
      match pyInt s with
      | some n => Except.ok n
      | none => Except.error PyError.valueError

/-- `RateLimitException.details`:
`loads(self.response.headers.get("x-ratelimit", ""))` with
`JSONDecodeError` caught and turned into `None` (`Json.null`). -/
def RateLimitException.details (e : TraktException) : Except PyError Json :=
  match e.response with
  | none => Except.error PyError.attributeError
  | some r =>
    match loads (headersGetD r.headers "x-ratelimit" "") with
    | some v => Except.ok v
    | none => Except.ok Json.null

/-- `AccountLimitExceeded.account_limit`:
`self.response.headers.get("x-account-limit", None)`. -/
def AccountLimitExceeded.account_limit (e : TraktException) :
    Except PyError (Option String) :=
  match e.response with
  | none => Except.error PyError.attributeError
  | some r => Except.ok (headersGet r.headers "x-account-limit")

/-- `TraktInternalException.error_message`:
`self.response.headers.get("x-error-message", None)`. -/
def TraktInternalException.error_message (e : TraktException) :
    Except PyError (Option String) :=
  match e.response with
  | none => Except.error PyError.attributeError
  | some r => Except.ok (headersGet r.headers "x-error-message")

/-- `BASE_URL` from `trakt/core.py`. -/
def BASE_URL : String := "https://api-v2launch.trakt.tv/"

/-- `HEADERS` from `trakt/core.py`: the default request headers. -/
def HEADERS : List (String × String) :=
  [("Content-Type", "application/json"), ("trakt-api-version", "2")]

/-- The `AuthConfig` named tuple of `trakt/core.py` (fields the `api()`
factory fills in; `REDIRECT_URI` keeps its default). -/
structure AuthConfig where
  CLIENT_ID : Option String
  CLIENT_SECRET : Option String
  OAUTH_EXPIRES_AT : Option Int
  OAUTH_REFRESH : Option Int
  OAUTH_TOKEN : Option String
  HEADERS : List (String × String)
  REDIRECT_URI : String := "urn:ietf:wg:oauth:2.0:oob"

/-- The `HttpClient` state the `api()` factory configures: the base URL it
is bound to, its installed default headers, and whether `set_auth` has been
called. -/
structure HttpClient where
  base_url : String
  headers : List (String × String)
  auth_set : Bool

/-- Modelled from the spec: `HttpClient` and its `set_headers` method live
in `trakt/api.py`, which is not among the sources; per §4.3/§6 the client
stores the default headers passed to it so every request carries them. -/
def set_headers (c : HttpClient) (hs : List (String × String)) : HttpClient :=
  { c with headers := hs }

/-- Modelled from the spec: `HttpClient.set_auth` (also in `trakt/api.py`)
attaches the `TokenAuth` authenticator to the client. -/
def set_auth (c : HttpClient) : HttpClient :=
  { c with auth_set := true }

/-- The body of `api()` in `trakt/core.py`: build the `AuthConfig` from the
module globals (all `None` until an auth flow sets them), construct the
client on `BASE_URL`, install `params.HEADERS`, and attach auth. -/
def api_build : HttpClient :=
  let params : AuthConfig :=
    { CLIENT_ID := none, CLIENT_SECRET := none, OAUTH_EXPIRES_AT := none,
      OAUTH_REFRESH := none, OAUTH_TOKEN := none, HEADERS := HEADERS }
  let client : HttpClient :=
    { base_url := BASE_URL, headers := [], auth_set := false }
  let client := set_headers client params.HEADERS
  set_auth client

/-- An object identity: memoized factories return the *same instance*, so
instances are tagged with a construction counter. -/
structure CachedInstance where
  ctor_id : Nat
deriving DecidableEq, Repr

/-- The process-wide memoization state of the two `lru_cache(maxsize=None)`
factories `config()` and `api()`: one cache cell per factory plus the
construction counter that mints object identities. -/
structure CoreState where
  config_cache : Option CachedInstance
  api_cache : Option CachedInstance
  next_id : Nat
deriving DecidableEq, Repr

/-- `config()` under `functools.lru_cache` semantics: return the cached
instance when present, otherwise run the factory body once (constructing a
fresh `Config(CONFIG_PATH)` instance) and cache the result. -/
def config_call (s : CoreState) : CachedInstance × CoreState :=
  match s.config_cache with
  | some v => (v, s)
  | none =>
    let v : CachedInstance := { ctor_id := s.next_id }
    (v, { s with config_cache := some v, next_id := s.next_id + 1 })

/-- `api()` under `functools.lru_cache` semantics: return the cached client
when present, otherwise run the factory body once and cache the result. -/
def api_call (s : CoreState) : CachedInstance × CoreState :=
  match s.api_cache with
  | some v => (v, s)
  | none =>
    let v : CachedInstance := { ctor_id := s.next_id }
    (v, { s with api_cache := some v, next_id := s.next_id + 1 })

/-- `config.cache_clear()`: reset the memoization so the next call
constructs afresh. -/
def config_cache_clear (s : CoreState) : CoreState :=
  { s with config_cache := none }

/-- `api.cache_clear()`: reset the memoization so the next call constructs
afresh. -/
def api_cache_clear (s : CoreState) : CoreState :=
  { s with api_cache := none }

/-- A cache cell is well formed when any cached instance was minted by an
earlier construction (its id is below the counter).  `config_call` and
`api_call` preserve this and it holds for the initial empty state. -/
def CoreState.wf (s : CoreState) : Prop :=
  (∀ v, s.config_cache = some v → v.ctor_id < s.next_id) ∧
  (∀ v, s.api_cache = some v → v.ctor_id < s.next_id)

/-- Fixture: a response with no headers. -/
def respNoHeaders : Response := { headers := [], body := "" }

/-- Fixture: a response whose `retry-after` header holds `"30"`. -/
def respRetry30 : Response := { headers := [("retry-after", "30")], body := "" }

/-- Fixture: a response whose `retry-after` header holds the non-numeric
string `"abc"`. -/
def respRetryAbc : Response := { headers := [("retry-after", "abc")], body := "" }

/-- Fixture: a response whose `x-ratelimit` header holds valid JSON. -/
def respRateJson : Response :=
  { headers := [("x-ratelimit",
      "\x7b\"name\":\"UNAUTHED_API_GET_LIMIT\",\"period\":300\x7d")],
    body := "" }

/-- Fixture: a response whose `x-ratelimit` header holds malformed JSON. -/
def respRateBad : Response :=
  { headers := [("x-ratelimit", "not-json")], body := "" }

/-- Fixture: a response whose `x-account-limit` header holds `"5"`. -/
def respAccount5 : Response :=
  { headers := [("x-account-limit", "5")], body := "" }

/-- Fixture: a response whose `x-error-message` header holds `"boom"`. -/
def respErrMsg : Response :=
  { headers := [("x-error-message", "boom")], body := "" }

/-- Fixture: a 401 refresh response with a JSON error body. -/
def respOauthBody : Response :=
  { headers := [],
    body := "\x7b\"error\":\"invalid_grant\",\"error_description\":\"bad token\"\x7d" }

/-- Fixture: a response whose body is not valid JSON. -/
def respNotJson : Response := { headers := [], body := "not-json" }

/-- Fixture: the exception instance `OAuthRefreshException.mk` produces on
`respOauthBody`. -/
def oauthExcFixture : TraktException :=
  { kind := ErrKind.oauthRefreshException,
    response := some respOauthBody,
    data := some (Json.obj [("error", Json.str "invalid_grant"),
                            ("error_description", Json.str "bad token")]) }

/-- Fixture: a memoization state in which both factories have already run
once (cached instance id 0, counter at 1). -/
def coreStateFixture : CoreState :=
  { config_cache := some { ctor_id := 0 },
    api_cache := some { ctor_id := 0 },
    next_id := 1 }

/-- Claim C1, counterexample: on a response whose `retry-after` header
holds the non-numeric string `"abc"`, `retry_after` does not return 1 — it
raises `ValueError`, because `int("abc")` raises and the default `1` of
`headers.get` only applies when the header is absent. -/
theorem c1_counterexample :
    RateLimitException.retry_after
      (TraktException.mk' ErrKind.rateLimitException (some respRetryAbc)) =
        Except.error PyError.valueError ∧
    RateLimitException.retry_after
      (TraktException.mk' ErrKind.rateLimitException (some respRetryAbc)) ≠
        Except.ok 1 :=
  ⟨rfl, fun h => nomatch h⟩

/-- Claim C1, amended: `retry_after` returns 1 when the `retry-after`
header is absent, returns the header's integer value when `int()` accepts
the header string, and raises `ValueError` when the header is present but
non-numeric. -/
theorem c1_retry_after (r : Response) :
    (headersGet r.headers "retry-after" = none →
      RateLimitException.retry_after
        (TraktException.mk' ErrKind.rateLimitException (some r)) =
          Except.ok 1) ∧
    (∀ s n, headersGet r.headers "retry-after" = some s → pyInt s = some n →
      RateLimitException.retry_after
        (TraktException.mk' ErrKind.rateLimitException (some r)) =
          Except.ok n) ∧
    (∀ s, headersGet r.headers "retry-after" = some s → pyInt s = none →
      RateLimitException.retry_after
        (TraktException.mk' ErrKind.rateLimitException (some r)) =
          Except.error PyError.valueError) := by
  refine ⟨fun h => ?_, fun s n h1 h2 => ?_, fun s h1 h2 => ?_⟩ <;>
    simp [RateLimitException.retry_after, TraktException.mk', *]

/-- Witness for the amended C1 theorem at concrete inputs: header `"30"`
yields 30. -/
theorem c1_retry_after_witness :
    RateLimitException.retry_after
      (TraktException.mk' ErrKind.rateLimitException (some respRetry30)) =
        Except.ok 30 :=
  (c1_retry_after respRetry30).2.1 "30" 30 rfl rfl

/-- Claim C2: `details` returns the decoded `x-ratelimit` header when it
holds valid JSON, and `None` when decoding fails — in particular when the
header is absent (`get` then yields `""`, which is not valid JSON).  No
exception escapes: the result is always `Except.ok`. -/
theorem c2_details (r : Response) :
    (∀ v, loads (headersGetD r.headers "x-ratelimit" "") = some v →
      RateLimitException.details
        (TraktException.mk' ErrKind.rateLimitException (some r)) =
          Except.ok v) ∧
    (loads (headersGetD r.headers "x-ratelimit" "") = none →
      RateLimitException.details
        (TraktException.mk' ErrKind.rateLimitException (some r)) =
          Except.ok Json.null) ∧
    (headersGet r.headers "x-ratelimit" = none →
      RateLimitException.details
        (TraktException.mk' ErrKind.rateLimitException (some r)) =
          Except.ok Json.null) := by
  refine ⟨fun v h => ?_, fun h => ?_, fun h => ?_⟩
  · simp [RateLimitException.details, TraktException.mk', h]
  · simp [RateLimitException.details, TraktException.mk', h]
  · have h0 : headersGetD r.headers "x-ratelimit" "" = "" := by
      unfold headersGetD
      unfold headersGet at h
      rw [h]
      rfl
    simp [RateLimitException.details, TraktException.mk', h0,
      show loads "" = none from rfl]

/-- Witness for C2 at concrete inputs: a valid JSON header decodes to its
value. -/
theorem c2_details_witness :
    RateLimitException.details
      (TraktException.mk' ErrKind.rateLimitException (some respRateJson)) =
        Except.ok (Json.obj [("name", Json.str "UNAUTHED_API_GET_LIMIT"),
                             ("period", Json.num 300)]) :=
  (c2_details respRateJson).1
    (Json.obj [("name", Json.str "UNAUTHED_API_GET_LIMIT"),
               ("period", Json.num 300)]) rfl

/-- Claim C3: each status-code exception class of the §4.1 table carries
exactly the documented `http_code`. -/
theorem c3_http_codes :
    http_code ErrKind.badRequestException = some 400 ∧
    http_code ErrKind.oauthException = some 401 ∧
    http_code ErrKind.forbiddenException = some 403 ∧
    http_code ErrKind.notFoundException = some 404 ∧
    http_code ErrKind.methodNotAllowedException = some 405 ∧
    http_code ErrKind.conflictException = some 409 ∧
    http_code ErrKind.accountLimitExceeded = some 420 ∧
    http_code ErrKind.processException = some 422 ∧
    http_code ErrKind.lockedUserAccountException = some 423 ∧
    http_code ErrKind.rateLimitException = some 429 ∧
    http_code ErrKind.traktInternalException = some 500 ∧
    http_code ErrKind.traktBadGateway = some 502 ∧
    http_code ErrKind.traktUnavailable = some 503 := by
  decide

/-- Claim C4: when a 401 refresh response has a JSON object body with
`error` and `error_description` members, the constructed
`OAuthRefreshException` exposes both fields, each extracted from the
decoded body. -/
theorem c4_oauth_refresh_fields (r : Response) (m : List (String × Json))
    (e d : Json) :
    loads r.body = some (Json.obj m) →
    List.lookup "error" m = some e →
    List.lookup "error_description" m = some d →
    ∃ exc, OAuthRefreshException.mk (some r) = Except.ok exc ∧
      OAuthRefreshException.error exc = Except.ok e ∧
      OAuthRefreshException.error_description exc = Except.ok d := by
  intro h1 h2 h3
  have hj : r.json = Except.ok (Json.obj m) := by
    unfold Response.json
    rw [h1]
  refine ⟨{ kind := ErrKind.oauthRefreshException, response := some r,
            data := some (Json.obj m) }, ?_, ?_, ?_⟩
  · simp [OAuthRefreshException.mk, hj]
  · simp [OAuthRefreshException.error, Json.indexStr, h2]
  · simp [OAuthRefreshException.error_description, Json.indexStr, h3]

/-- Witness for C4 at a concrete refresh response body. -/
theorem c4_oauth_refresh_fields_witness :
    ∃ exc, OAuthRefreshException.mk (some respOauthBody) = Except.ok exc ∧
      OAuthRefreshException.error exc = Except.ok (Json.str "invalid_grant") ∧
      OAuthRefreshException.error_description exc =
        Except.ok (Json.str "bad token") :=
  c4_oauth_refresh_fields respOauthBody
    [("error", Json.str "invalid_grant"),
     ("error_description", Json.str "bad token")]
    (Json.str "invalid_grant") (Json.str "bad token") rfl rfl rfl

/-- Claim C5: every constructor of the taxonomy stores the passed response
unchanged on the instance — the base `__init__`, the `BadResponseException`
`__init__`, and (whenever construction succeeds) the
`OAuthRefreshException` `__init__`. -/
theorem c5_response_stored (k : ErrKind) (r : Option Response)
    (d : Option String) :
    (TraktException.mk' k r).response = r ∧
    (BadResponseException.mk r d).response = r ∧
    (∀ exc, OAuthRefreshException.mk r = Except.ok exc →
      exc.response = r) := by
  refine ⟨rfl, rfl, fun exc h => ?_⟩
  cases r with
  | none => exact nomatch h
  | some r0 =>
    cases hj : r0.json with
    | ok v =>
      simp only [OAuthRefreshException.mk, hj, Except.ok.injEq] at h
      rw [← h]
    | error e =>
      simp only [OAuthRefreshException.mk, hj] at h
      exact nomatch h

/-- Witness for C5 at concrete inputs: the stored response of a
successfully constructed `OAuthRefreshException` is the passed response. -/
theorem c5_response_stored_witness :
    oauthExcFixture.response = some respOauthBody :=
  (c5_response_stored ErrKind.oauthRefreshException (some respOauthBody)
    none).2.2 oauthExcFixture rfl

/-- Claim C6: `account_limit` is the value of the `x-account-limit` header
when present and `None` when absent. -/
theorem c6_account_limit (r : Response) :
    (∀ v, headersGet r.headers "x-account-limit" = some v →
      AccountLimitExceeded.account_limit
        (TraktException.mk' ErrKind.accountLimitExceeded (some r)) =
          Except.ok (some v)) ∧
    (headersGet r.headers "x-account-limit" = none →
      AccountLimitExceeded.account_limit
        (TraktException.mk' ErrKind.accountLimitExceeded (some r)) =
          Except.ok none) := by
  refine ⟨fun v h => ?_, fun h => ?_⟩ <;>
    simp [AccountLimitExceeded.account_limit, TraktException.mk', h]

/-- Witness for C6 at concrete inputs: header `"5"` is exposed verbatim. -/
theorem c6_account_limit_witness :
    AccountLimitExceeded.account_limit
      (TraktException.mk' ErrKind.accountLimitExceeded (some respAccount5)) =
        Except.ok (some "5") :=
  (c6_account_limit respAccount5).1 "5" rfl

/-- Claim C7: `error_message` is the value of the `x-error-message` header
when present and `None` when absent. -/
theorem c7_error_message (r : Response) :
    (∀ v, headersGet r.headers "x-error-message" = some v →
      TraktInternalException.error_message
        (TraktException.mk' ErrKind.traktInternalException (some r)) =
          Except.ok (some v)) ∧
    (headersGet r.headers "x-error-message" = none →
      TraktInternalException.error_message
        (TraktException.mk' ErrKind.traktInternalException (some r)) =
          Except.ok none) := by
  refine ⟨fun v h => ?_, fun h => ?_⟩ <;>
    simp [TraktInternalException.error_message, TraktException.mk', h]

/-- Witness for C7 at concrete inputs: header `"boom"` is exposed
verbatim. -/
theorem c7_error_message_witness :
    TraktInternalException.error_message
      (TraktException.mk' ErrKind.traktInternalException (some respErrMsg)) =
        Except.ok (some "boom") :=
  (c7_error_message respErrMsg).1 "boom" rfl

/-- Claim C8: `config()` and `api()` are memoized — after the first call
every further call returns the identical cached instance without changing
the memoization state; and after a `cache_clear()` reset the next call
constructs a fresh instance, distinct from the previously cached one. -/
theorem c8_memoized (s : CoreState) :
    ((config_call (config_call s).2).1 = (config_call s).1) ∧
    ((config_call (config_call s).2).2 = (config_call s).2) ∧
    ((api_call (api_call s).2).1 = (api_call s).1) ∧
    ((api_call (api_call s).2).2 = (api_call s).2) ∧
    (∀ v, s.config_cache = some v → v.ctor_id < s.next_id →
      (config_call (config_cache_clear s)).1 ≠ v) ∧
    (∀ v, s.api_cache = some v → v.ctor_id < s.next_id →
      (api_call (api_cache_clear s)).1 ≠ v) := by
  refine ⟨?_, ?_, ?_, ?_, fun v hv hlt heq => ?_, fun v hv hlt heq => ?_⟩
  · cases hc : s.config_cache <;> simp [config_call, hc]
  · cases hc : s.config_cache <;> simp [config_call, hc]
  · cases hc : s.api_cache <;> simp [api_call, hc]
  · cases hc : s.api_cache <;> simp [api_call, hc]
  · simp only [config_call, config_cache_clear] at heq
    rw [← heq] at hlt
    exact lt_irrefl _ hlt
  · simp only [api_call, api_cache_clear] at heq
    rw [← heq] at hlt
    exact lt_irrefl _ hlt

/-- Witness for C8 at a concrete state: after a reset, the next `config()`
call does not return the previously cached instance. -/
theorem c8_memoized_witness :
    (config_call (config_cache_clear coreStateFixture)).1 ≠
      CachedInstance.mk 0 :=
  (c8_memoized coreStateFixture).2.2.2.2.1 (CachedInstance.mk 0) rfl
    (by decide)

/-- Claim C9: the default header set `api()` installs on the client is
exactly `Content-Type: application/json` plus the API-version header
`trakt-api-version: 2`. -/
theorem c9_default_headers :
    api_build.headers =
      [("Content-Type", "application/json"), ("trakt-api-version", "2")] ∧
    api_build.headers = HEADERS :=
  ⟨rfl, rfl⟩

/-- Claim C10: `OAuthRefreshException.__init__` decodes the response body
eagerly, so constructing it from a response whose body is not valid JSON
fails with `JSONDecodeError` and no instance is created. -/
theorem c10_eager_body_parse (r : Response) :
    loads r.body = none →
    OAuthRefreshException.mk (some r) =
      Except.error PyError.jsonDecodeError := by
  intro h
  simp [OAuthRefreshException.mk, Response.json, h]

/-- Witness for C10 at a concrete non-JSON body. -/
theorem c10_eager_body_parse_witness :
    OAuthRefreshException.mk (some respNotJson) =
      Except.error PyError.jsonDecodeError :=
  c10_eager_body_parse respNotJson rfl
